import Mathlib

/-!
Shallow embedding of the multi-store web gateway (`web-app.js`):
query expansion (`translateSearchQuery`), the all-stores aggregate search
of `POST /api/chat/search`, the demo / provider AI response dispatch
(`generateAIResponse`, `generateDemoAIResponse`), the order endpoints
(`POST /api/orders/create`, `POST /api/orders/:trackingId/pay`) and the
AI configuration endpoints (`GET`/`POST /api/ai/config`).

Conventions: JavaScript numbers are idealized as exact rationals plus
NaN and the two infinities (`JNum`); machine-level IEEE-754 rounding is
not observed by any statement below.  Fallible upstream calls (store
clients, AI providers) are modelled as `Except`-returning capabilities;
`try`/`catch` becomes a `match` on the `Except` result.  The in-memory
`Map` registries become association lists in insertion order.
-/

/-- JavaScript numeric values as produced by `parseFloat`, `Math.min` /
`Math.max` and subtraction on their results: NaN, an infinity, or a
finite value (an exact rational). -/
inductive JNum where
  | nan
  | posInf
  | negInf
  | num (q : ℚ)
deriving DecidableEq

/-- Whether a `JNum` is a finite number. -/
def JNum.isNum : JNum → Bool
  | .num _ => true
  | _ => false

/-- The finite value of a `JNum`, with 0 for NaN and the infinities. -/
def JNum.val : JNum → ℚ
  | .num q => q
  | _ => 0

/-- JavaScript `StrWhiteSpace` characters relevant to `parseFloat`. -/
def isJsSpace (c : Char) : Bool :=
  c = ' ' ∨ c = '\t' ∨ c = '\n' ∨ c = '\r'

/-- Numeric value of a decimal digit character. -/
def digitVal (c : Char) : Nat := c.toNat - '0'.toNat

/-- Value of a list of decimal digit characters, most significant first. -/
def digitsToNat (ds : List Char) : Nat :=
  ds.foldl (fun a c => a * 10 + digitVal c) 0

/-- Exponent part of a JS decimal literal (`e`/`E`, optional sign,
digits); an exponent marker not followed by digits is ignored, as
`parseFloat` takes the longest valid literal prefix. -/
def parseExponent (cs : List Char) : Int :=
  match cs with
  | 'e' :: rest | 'E' :: rest =>
    let sgn : Int := match rest with
      | '-' :: _ => -1
      | _ => 1
    let rest2 := match rest with
      | '-' :: r => r
      | '+' :: r => r
      | _ => rest
    let ds := rest2.takeWhile Char.isDigit
    if ds = [] then 0 else sgn * (digitsToNat ds : Int)
  | _ => 0

/-- JavaScript `parseFloat`: skip leading whitespace, optional sign,
`Infinity` or a decimal literal (digits, optional fraction, optional
exponent); trailing junk is ignored; no valid prefix gives NaN. -/
def jsParseFloat (s : String) : JNum :=
  let cs0 := s.data.dropWhile isJsSpace
  let neg : Bool := match cs0 with
    | '-' :: _ => true
    | _ => false
  let cs := match cs0 with
    | '-' :: r => r
    | '+' :: r => r
    | _ => cs0
  if "Infinity".data.isPrefixOf cs then
    if neg then JNum.negInf else JNum.posInf
  else
    let intDs := cs.takeWhile Char.isDigit
    let rest1 := cs.dropWhile Char.isDigit
    let fracDs := match rest1 with
      | '.' :: r => r.takeWhile Char.isDigit
      | _ => []
    let rest2 := match rest1 with
      | '.' :: r => r.dropWhile Char.isDigit
      | _ => rest1
    if intDs = [] ∧ fracDs = [] then JNum.nan
    else
      let e : Int := parseExponent rest2
      let mantNum : Nat := digitsToNat intDs * 10 ^ fracDs.length + digitsToNat fracDs
      let numAbs : Int := (mantNum : Int) * (if 0 ≤ e then 10 ^ e.toNat else 1)
      let den : Nat := 10 ^ fracDs.length * (if 0 ≤ e then 1 else 10 ^ (-e).toNat)
      JNum.num (mkRat (if neg then -numAbs else numAbs) den)

/-- JS `a || dflt` on an optional string: `undefined`/`null` and the
empty string are falsy. -/
def jsOrStr (v : Option String) (dflt : String) : String :=
  match v with
  | none => dflt
  | some s => if s = "" then dflt else s

/-- JS `String.prototype.toLowerCase`, character-wise (ASCII letters;
Hebrew has no case distinction). -/
def jsToLower (s : String) : String :=
  String.mk (s.data.map Char.toLower)

/-- Whether `sub` occurs as a contiguous sublist of `l`. -/
def listInfixOf (sub : List Char) : List Char → Bool
  | [] => sub.isEmpty
  | c :: t => sub.isPrefixOf (c :: t) || listInfixOf sub t

/-- JS `String.prototype.includes` (substring containment). -/
def jsIncludes (s sub : String) : Bool :=
  listInfixOf sub.data s.data

/-- JS `String.prototype.startsWith`. -/
def jsStartsWith (s pre : String) : Bool :=
  pre.data.isPrefixOf s.data

/-- JS `s.slice(-n)`: the last `n` characters (the whole string when it
is shorter than `n`). -/
def jsSliceNeg (s : String) (n : Nat) : String :=
  String.mk (s.data.drop (s.data.length - n))

/-- JS `Math.min` over a pair, with NaN contamination. -/
def jnMin (a b : JNum) : JNum :=
  match a, b with
  | .nan, _ => .nan
  | _, .nan => .nan
  | .negInf, _ => .negInf
  | _, .negInf => .negInf
  | .posInf, x => x
  | x, .posInf => x
  | .num p, .num q => .num (min p q)

/-- JS `Math.max` over a pair, with NaN contamination. -/
def jnMax (a b : JNum) : JNum :=
  match a, b with
  | .nan, _ => .nan
  | _, .nan => .nan
  | .posInf, _ => .posInf
  | _, .posInf => .posInf
  | .negInf, x => x
  | x, .negInf => x
  | .num p, .num q => .num (max p q)

/-- JS `Math.min(...xs)` (`Infinity` when `xs` is empty). -/
def jsMin (xs : List JNum) : JNum :=
  xs.foldl jnMin .posInf

/-- JS `Math.max(...xs)` (`-Infinity` when `xs` is empty). -/
def jsMax (xs : List JNum) : JNum :=
  xs.foldl jnMax .negInf

/-- Fractional decimal digits of `r / d` up to the given fuel. -/
def fracDigits : Nat → Nat → Nat → List Char
  | 0, _, _ => []
  | _, 0, _ => []
  | fuel + 1, r, d =>
    let r10 := r * 10
    Char.ofNat ('0'.toNat + r10 / d) :: fracDigits fuel (r10 % d) d

/-- Rendering of a JS number inside a template string.  Decimal
formatting of non-integral finite values is a simplified exact-decimal
rendering (IEEE-754 double formatting is not modelled); no statement
below inspects these renderings. -/
def jsNumToString : JNum → String
  | .nan => "NaN"
  | .posInf => "Infinity"
  | .negInf => "-Infinity"
  | .num q =>
    let sgn := if q < 0 then "-" else ""
    let n := q.num.natAbs
    let ip := n / q.den
    let rem := n % q.den
    if rem = 0 then sgn ++ toString ip
    else sgn ++ toString ip ++ "." ++ String.mk (fracDigits 20 rem q.den)

/-- The static Hebrew→English search-term dictionary of
`translateSearchQuery`, in source (object-literal insertion) order. -/
def translations : List (String × String) :=
  [ ("בגדי ילדים", "children baby kids clothes")
  , ("ילדים", "children baby kids")
  , ("תינוק", "baby")
  , ("רכב", "car automotive")
  , ("מכונית", "car")
  , ("ספרים", "book encyclopedia")
  , ("מוצרי רכב", "car automotive")
  , ("בגדים", "clothes shirt pants")
  , ("חולצה", "shirt")
  , ("מכנסיים", "pants")
  , ("נעליים", "shoes")
  , ("אוזניות", "headphones")
  , ("טלפון", "phone")
  , ("מחשב", "computer laptop")
  , ("טלוויזיה", "tv television") ]

/-- Embeds `translateSearchQuery`: the original query first, then, for each
dictionary entry whose key occurs case-insensitively in the query, that
entry's expansion is pushed, in dictionary order. -/
def translateSearchQuery (query : String) : List String :=
  translations.foldl
    (fun searchTerms kv =>
      if jsIncludes (jsToLower query) (jsToLower kv.1) then searchTerms ++ [kv.2]
      else searchTerms)
    [query]

/-- A Shopify product variant as consumed by the handlers (`id` for
order creation, `price` for search display). -/
structure RawVariant where
  id : Nat
  price : String
deriving DecidableEq

/-- A product image (`src` only is read). -/
structure RawImage where
  src : String
deriving DecidableEq

/-- A raw product as returned by a store client.  `vendor` and
`product_type` are optional (the source reads them with `?.`). -/
structure RawProduct where
  id : Nat
  title : String
  vendor : Option String
  product_type : Option String
  variants : List RawVariant
  images : List RawImage
deriving DecidableEq

/-- Embeds `getSmartStoreName`: classifies a product into a display store name
by substring tests on the lowercased title.  (The source also lowercases
`product_type` and `vendor` into locals, but never reads them.) -/
def getSmartStoreName (product : RawProduct) : String :=
  let title := jsToLower product.title
  if jsIncludes title "laptop" ∨ jsIncludes title "gaming" ∨ jsIncludes title "smartphone" then
    "🖥️ TechMart Electronics"
  else if jsIncludes title "children" ∨ jsIncludes title "baby" ∨ jsIncludes title "ילד" ∨
      jsIncludes title "בייבי" then
    "👶 בגדי ילדים"
  else if jsIncludes title "tennis" ∨ jsIncludes title "bike" ∨ jsIncludes title "sport" then
    "🏃 ספורטק"
  else if jsIncludes title "encyclopedia" ∨ jsIncludes title "book" then
    "📚 ספרים ועוד"
  else if jsIncludes title "garden" ∨ jsIncludes title "tool" then
    "🌱 כלי גינה"
  else if jsIncludes title "headphone" ∨ jsIncludes title "audio" then
    "🎵 Audio Pro"
  else if jsIncludes title "home" ∨ jsIncludes title "kitchen" then
    "🏠 בית וגינה"
  else if jsIncludes title "fashion" ∨ jsIncludes title "clothing" then
    "👕 אופנה"
  else if jsIncludes title "beauty" ∨ jsIncludes title "cosmetic" then
    "💄 יופי וקוסמטיקה"
  else
    "🛍️ מרקט כללי"

/-- The product view pushed into `allResults` by the chat-search
handler: store-local id, first-variant price, first-image source, store
provenance and the classified display name. -/
structure AggregatedProduct where
  id : Nat
  title : String
  price : Option String
  vendor : Option String
  type : Option String
  image : Option String
  storeId : String
  storeName : String
deriving DecidableEq

/-- Mapping of a raw product to its aggregated view for a given store
(the object literal built inside the search loops). -/
def toAggregated (storeId : String) (p : RawProduct) : AggregatedProduct :=
  { id := p.id
  , title := p.title
  , price := p.variants.head?.map RawVariant.price
  , vendor := p.vendor
  , type := p.product_type
  , image := p.images.head?.map RawImage.src
  , storeId := storeId
  , storeName := getSmartStoreName p }

/-- A customer record (with the handler's placeholder defaults already
applied where fields were missing). -/
structure Customer where
  email : String
  firstName : String
  lastName : String
deriving DecidableEq

/-- A line item passed to a store client's `createOrder`. -/
structure LineItem where
  variantId : Nat
  quantity : Nat
deriving DecidableEq

/-- A shipping address. -/
structure Address where
  address1 : String
  city : String
  province : String
  country : String
  zip : String
deriving DecidableEq

/-- The upstream order object returned by a store client's
`createOrder`. -/
structure ShopifyOrder where
  id : Nat
  order_number : Option String
  name : String
  total_price : String
deriving DecidableEq

/-- A connected store: registry metadata plus its client capability.
Only the client operations exercised by the embedded endpoints are
modelled; each is fallible (`Except` models a thrown error). -/
structure Store where
  id : String
  name : String
  url : String
  token : String
  owner : String
  createdAt : Nat
  searchProducts : String → Nat → Except String (List RawProduct)
  listProducts : Nat → Except String (List RawProduct)
  createOrder : List LineItem → Customer → Address → Except String ShopifyOrder

/-- The inner `products.forEach` of the all-stores search: push each
product not yet seen (per-store seen-id set), recording its id. -/
def pushProducts (storeId : String) :
    List RawProduct → List Nat × List AggregatedProduct → List Nat × List AggregatedProduct
  | [], st => st
  | p :: ps, st =>
    if st.1.contains p.id then pushProducts storeId ps st
    else pushProducts storeId ps (st.1 ++ [p.id], st.2 ++ [toAggregated storeId p])

/-- One expanded term against one store: a thrown `searchProducts` is
caught (the inner `catch (searchError)`) and contributes nothing. -/
def termStep (storeId : String) (store : Store)
    (acc : List Nat × List AggregatedProduct) (term : String) :
    List Nat × List AggregatedProduct :=
  match store.searchProducts term 10 with
  | .error _ => acc
  | .ok ps => pushProducts storeId ps acc

/-- All expanded terms against one store, threading the per-store
seen-id set and the global result list. -/
def storeTermFold (storeId : String) (store : Store) (terms : List String)
    (start : List Nat × List AggregatedProduct) : List Nat × List AggregatedProduct :=
  terms.foldl (termStep storeId store) start

/-- The unsorted `allResults` of the all-stores branch of
`POST /api/chat/search`: every store, every expanded term, per-store
deduplication by product id. -/
def searchAllStoresRaw (conns : List (String × Store)) (query : String) :
    List AggregatedProduct :=
  let searchTerms := translateSearchQuery query
  conns.foldl (fun allResults e => (storeTermFold e.1 e.2 searchTerms ([], allResults)).2) []

/-- One store's contribution to the all-stores search (its retained
products, starting from an empty seen-id set). -/
def storeContribution (storeId : String) (store : Store) (terms : List String) :
    List AggregatedProduct :=
  (storeTermFold storeId store terms ([], [])).2

/-- The sort key of the price comparator: `parseFloat(p.price || '0')`. -/
def priceKey (p : AggregatedProduct) : JNum :=
  jsParseFloat (jsOrStr p.price "0")

/-- The comparator value `parseFloat(a.price||'0') - parseFloat(b.price||'0')`
as consumed by `Array.prototype.sort`: ECMAScript `SortCompare` maps a
NaN comparator result to `+0`, so only the sign survives. -/
def jnumCmp (x y : JNum) : Int :=
  match x, y with
  | .nan, _ => 0
  | _, .nan => 0
  | .posInf, .posInf => 0
  | .negInf, .negInf => 0
  | .posInf, _ => 1
  | .negInf, _ => -1
  | _, .posInf => -1
  | _, .negInf => 1
  | .num a, .num b => if a < b then -1 else if b < a then 1 else 0

/-- The price comparator of the all-stores search. -/
def priceCmp (a b : AggregatedProduct) : Int :=
  jnumCmp (priceKey a) (priceKey b)

/-- The order in which the stable sort keeps `a` before `b`: comparator
value `≤ 0`. -/
def priceLe (a b : AggregatedProduct) : Prop :=
  priceCmp a b ≤ 0

instance : DecidableRel priceLe := fun a b =>
  inferInstanceAs (Decidable (priceCmp a b ≤ 0))

/-- The sorted product list of the all-stores branch of
`POST /api/chat/search` (`allResults.sort(...)`, modelled as the stable
insertion sort on the `SortCompare`-filtered comparator). -/
def searchAllStores (conns : List (String × Store)) (query : String) :
    List AggregatedProduct :=
  (searchAllStoresRaw conns query).insertionSort priceLe

/-- A concrete raw product with one variant and no image. -/
def demoProduct (pid : Nat) (title price : String) : RawProduct :=
  { id := pid
  , title := title
  , vendor := some "Acme"
  , product_type := some "general"
  , variants := [{ id := pid * 10, price := price }]
  , images := [] }

/-- Concrete healthy store: every search returns the two products of
the spec scenario (`{id:1,price:"50"}`, `{id:2,price:"10"}`). -/
def demoStore1 : Store :=
  { id := "s1"
  , name := "Store1"
  , url := "https://one.example.com"
  , token := "tok-one-secret"
  , owner := "owner1@example.com"
  , createdAt := 0
  , searchProducts := fun _ _ =>
      .ok [demoProduct 1 "Product One" "50", demoProduct 2 "Product Two" "10"]
  , listProducts := fun _ =>
      .ok [demoProduct 1 "Product One" "50", demoProduct 2 "Product Two" "10"]
  , createOrder := fun _ _ _ => .ok { id := 900, order_number := some "#1001", name := "#1001", total_price := "50" } }

/-- Concrete dead store: every client call throws. -/
def demoStore2 : Store :=
  { id := "s2"
  , name := "Store2"
  , url := "https://two.example.com"
  , token := "tok-two-secret"
  , owner := "owner2@example.com"
  , createdAt := 0
  , searchProducts := fun _ _ => .error "Store unavailable"
  , listProducts := fun _ => .error "Store unavailable"
  , createOrder := fun _ _ _ => .error "Store unavailable" }

/-- Concrete store whose catalogue holds a numeric-priced product
followed by one whose price string does not parse as a number. -/
def demoStoreBadPrice : Store :=
  { id := "sx"
  , name := "StoreX"
  , url := "https://x.example.com"
  , token := "tok-x-secret"
  , owner := "ownerx@example.com"
  , createdAt := 0
  , searchProducts := fun _ _ =>
      .ok [demoProduct 7 "Plain Item" "5", demoProduct 8 "Odd Item" "abc"]
  , listProducts := fun _ => .ok []
  , createOrder := fun _ _ _ => .error "not supported" }

/-- JSON-ish JavaScript values flowing through the AI adapters,
including `undefined`. -/
inductive Json where
  | undefined
  | null
  | bool (b : Bool)
  | num (n : JNum)
  | str (s : String)
  | arr (elems : List Json)
  | obj (fields : List (String × Json))

/-- JS property access `j[k]`: throws on `undefined`/`null`, yields
`undefined` for a missing key or a non-object receiver. -/
def Json.getF : Json → String → Except String Json
  | .undefined, _ => .error "TypeError: cannot read properties of undefined"
  | .null, _ => .error "TypeError: cannot read properties of null"
  | .obj kvs, k => .ok ((kvs.lookup k).getD .undefined)
  | _, _ => .ok .undefined

/-- JS index access `j[i]`: throws on `undefined`/`null`; array index or
string-keyed property lookup otherwise. -/
def Json.idx : Json → Nat → Except String Json
  | .undefined, _ => .error "TypeError: cannot read properties of undefined"
  | .null, _ => .error "TypeError: cannot read properties of null"
  | .arr xs, i => .ok (xs.getD i .undefined)
  | .obj kvs, i => .ok ((kvs.lookup (toString i)).getD .undefined)
  | _, _ => .ok .undefined

/-- JS truthiness of a value. -/
def Json.truthy : Json → Bool
  | .undefined => false
  | .null => false
  | .bool b => b
  | .num .nan => false
  | .num (.num q) => q ≠ 0
  | .num _ => true
  | .str s => s ≠ ""
  | .arr _ => true
  | .obj _ => true

/-- An outbound HTTP POST capability (`axios.post`): URL, JSON body and
headers to either the 2xx response `data` or a thrown error (network
failure or non-2xx status). -/
abbrev Net := String → Json → List (String × String) → Except String Json

/-- The mutable AI configuration (`aiConfig`). -/
structure AIConfig where
  provider : String
  model : String
  anthropicKey : String
  openaiKey : String
  geminiFreeKey : String
  huggingfaceKey : String
  ollamaUrl : String
  deepseekKey : String
deriving DecidableEq

/-- The `switch (aiConfig.provider)` at the top of `generateAIResponse`
selecting `currentApiKey` (`null` for an unknown provider or `none`). -/
def selectApiKey (cfg : AIConfig) : Option String :=
  if cfg.provider = "anthropic" then some cfg.anthropicKey
  else if cfg.provider = "openai" then some cfg.openaiKey
  else if cfg.provider = "gemini-free" then some cfg.geminiFreeKey
  else if cfg.provider = "huggingface" then some cfg.huggingfaceKey
  else if cfg.provider = "ollama" then some cfg.ollamaUrl
  else if cfg.provider = "deepseek" then some cfg.deepseekKey
  else none

/-- JS falsiness of an optional string (`null`/`undefined` or `""`). -/
def jsFalsyOpt : Option String → Bool
  | none => true
  | some s => s = ""

/-- Evaluates `n || 1` on a JS number modelled as a count (0 is falsy). -/
def jsOrNat (n dflt : Nat) : Nat :=
  if n = 0 then dflt else n

/-- The `storeData` argument of the AI responders. -/
structure StoreData where
  totalStores : Nat
  totalProducts : Nat
deriving DecidableEq

/-- One product line of the shared prompt template (template-literal
interpolation renders a missing price as the string `undefined`). -/
def productLine (p : AggregatedProduct) : String :=
  "• " ++ p.title ++ " - ₪" ++ p.price.getD "undefined" ++ " (" ++ p.storeName ++ ")"

/-- The shared natural-language prompt template of `generateAIResponse`. -/
def buildPrompt (query : String) (products : List AggregatedProduct)
    (storeData : StoreData) : String :=
  "\nאתה עוזר מכירות מקצועי בחנות אלקטרוניקה ישראלית מתקדמת שמחובר ל-Claude Desktop.\n\nשאלת הלקוח: \"" ++
    query ++ "\"\n\nמוצרים זמינים (" ++ toString products.length ++ "):\n" ++
    String.intercalate "\n" ((products.take 5).map productLine) ++
    "\n\nחנויות מחוברות: " ++ toString (jsOrNat storeData.totalStores 1) ++
    "\n\nתענה בעברית בצורה ידידותית ומקצועית:\n1. הסבר מה מצאת ממספר החנויות\n2. המלץ על המוצרים הטובים ביותר עם יתרונות\n3. תן טיפים לבחירה חכמה והשוואת מחירים\n4. עודד לרכישה עם דגש על שירות והבדלי מחיר\n\nתשובה מקצועית ומועילה (עד 200 מילים) המדגישה את היתרון של החיפוש הרב-חנותי.\n    "

/-- Embeds `generateDemoAIResponse`: the deterministic keyword→template demo
responder used when no AI provider is configured. -/
def generateDemoAIResponse (query : String) (products : List AggregatedProduct)
    (storeData : StoreData) : String :=
  let productCount := products.length
  let storeCount := jsOrNat storeData.totalStores 1
  let prices := products.map (fun p => jsParseFloat (jsOrStr p.price "0"))
  let laptop := "מצאתי עבורך " ++ toString productCount ++
    " אפשרויות מעניינות ללפטופ! המחיר נע בין ₪" ++ jsNumToString (jsMin prices) ++
    " ל-₪" ++ jsNumToString (jsMax prices) ++
    ". המלצתי: בדוק את האפשרות הזולה ביותר תחילה - לפעמים זה בדיוק מה שאתה צריך!"
  let phone := "יש לנו " ++ toString productCount ++
    " סמארטפונים זמינים! המחירים משתנים בהתאם לדגם והתכונות. המלצתי: תבדוק את המפרט הטכני של כל דגם כדי לוודא שהוא מתאים לצרכים שלך."
  let children := "מוצרי ילדים? מצאתי " ++ toString productCount ++ " פריטים מ-" ++
    toString storeCount ++ " חנויות שונות. חשוב לבדוק גיל מומלץ ותקני בטיחות. המחירים נראים הוגנים!"
  let gaming := "לגיימרים יש לנו " ++ toString productCount ++
    " מוצרים מעולים! בין אם זה לפטופ גיימינג או אוזניות, המלצתי לבדוק ביקורות של משתמשים. המחיר הממוצע נראה תחרותי."
  let dflt := "מצאתי עבורך " ++ toString productCount ++ " מוצרים מ-" ++
    toString storeCount ++
    " חנויות! יש לי כמה המלצות: 1️⃣ השווה מחירים 2️⃣ בדוק ביקורות 3️⃣ שים לב לעלויות משלוח. בהצלחה!"
  let lowerQuery := jsToLower query
  if jsIncludes lowerQuery "לפטופ" ∨ jsIncludes lowerQuery "laptop" then laptop
  else if jsIncludes lowerQuery "טלפון" ∨ jsIncludes lowerQuery "phone" ∨
      jsIncludes lowerQuery "סמארטפון" then phone
  else if jsIncludes lowerQuery "ילד" ∨ jsIncludes lowerQuery "children" ∨
      jsIncludes lowerQuery "בייבי" then children
  else if jsIncludes lowerQuery "גיימינג" ∨ jsIncludes lowerQuery "gaming" ∨
      jsIncludes lowerQuery "אוזני" then gaming
  else dflt

/-- The provider if/else dispatch inside the `try` block of
`generateAIResponse`: one adapter call via `net` plus provider-specific
response-field extraction; the final `.ok .undefined` is the implicit
`undefined` return when no branch matches. -/
def tryBlock (net : Net) (cfg : AIConfig) (apiKey : String) (prompt : String) :
    Except String Json :=
  if cfg.provider = "anthropic" then
    (net "https://api.anthropic.com/v1/messages"
        (.obj [("model", .str cfg.model), ("max_tokens", .num (.num 400)),
               ("messages", .arr [.obj [("role", .str "user"), ("content", .str prompt)]])])
        [("Content-Type", "application/json"), ("x-api-key", apiKey),
         ("anthropic-version", "2023-06-01")]).bind
      (fun data => (data.getF "content").bind
        (fun c => (c.idx 0).bind (fun c0 => c0.getF "text")))
  else if cfg.provider = "openai" then
    (net "https://api.openai.com/v1/chat/completions"
        (.obj [("model", .str cfg.model),
               ("messages", .arr [.obj [("role", .str "user"), ("content", .str prompt)]]),
               ("max_tokens", .num (.num 400))])
        [("Content-Type", "application/json"), ("Authorization", "Bearer " ++ apiKey)]).bind
      (fun data => (data.getF "choices").bind
        (fun c => (c.idx 0).bind (fun c0 => (c0.getF "message").bind (fun m => m.getF "content"))))
  else if cfg.provider = "gemini-free" then
    (net ("https://generativelanguage.googleapis.com/v1beta/models/" ++ cfg.model ++
          ":generateContent?key=" ++ apiKey)
        (.obj [("contents", .arr [.obj [("parts", .arr [.obj [("text", .str prompt)]])]])])
        [("Content-Type", "application/json")]).bind
      (fun data => (data.getF "candidates").bind
        (fun c => (c.idx 0).bind (fun c0 => (c0.getF "content").bind
          (fun ct => (ct.getF "parts").bind
            (fun ps => (ps.idx 0).bind (fun p0 => p0.getF "text"))))))
  else if cfg.provider = "huggingface" then
    (net ("https://api-inference.huggingface.co/models/" ++ cfg.model)
        (.obj [("inputs", .str prompt),
               ("parameters", .obj [("max_length", .num (.num 200)),
                                    ("temperature", .num (.num (mkRat 7 10)))])])
        [("Authorization", "Bearer " ++ apiKey)]).bind
      (fun data => (data.getF "generated_text").bind
        (fun g1 =>
          if g1.truthy then .ok g1
          else (data.idx 0).bind (fun d0 => (d0.getF "generated_text").bind
            (fun g2 => if g2.truthy then .ok g2
                       else .ok (.str "תשובה מבינה מלאכותית זמינה")))))
  else if cfg.provider = "ollama" then
    (net (apiKey ++ "/api/generate")
        (.obj [("model", .str cfg.model), ("prompt", .str prompt), ("stream", .bool false)])
        []).bind
      (fun data => data.getF "response")
  else if cfg.provider = "deepseek" then
    (net "https://api.deepseek.com/v1/chat/completions"
        (.obj [("model", .str cfg.model),
               ("messages", .arr [.obj [("role", .str "user"), ("content", .str prompt)]]),
               ("max_tokens", .num (.num 400))])
        [("Content-Type", "application/json"), ("Authorization", "Bearer " ++ apiKey)]).bind
      (fun data => (data.getF "choices").bind
        (fun c => (c.idx 0).bind (fun c0 => (c0.getF "message").bind (fun m => m.getF "content"))))
  else
    .ok .undefined

/-- Embeds `generateAIResponse`: demo template when no provider/credential is
configured, otherwise one adapter call whose thrown failure is caught
and turned into `null`.  The result is the raw JS value handed to the
HTTP response (a string, `null`, or whatever the adapter extracted). -/
def generateAIResponse (net : Net) (cfg : AIConfig) (query : String)
    (products : List AggregatedProduct) (storeData : StoreData) : Json :=
  let currentApiKey := selectApiKey cfg
  if jsFalsyOpt currentApiKey = true ∨ cfg.provider = "none" then
    .str (generateDemoAIResponse query products storeData)
  else
    match tryBlock net cfg (currentApiKey.getD "") (buildPrompt query products storeData) with
    | .error _ => .null
    | .ok v => v

/-- The JSON payload of the all-stores branch of `POST /api/chat/search`. -/
structure ChatSearchResponse where
  success : Bool
  totalStores : Nat
  totalProducts : Nat
  products : List AggregatedProduct
  aiResponse : Json

/-- The all-stores branch of `POST /api/chat/search`: aggregate, sort,
attach the AI (or demo, or `null`) response. -/
def chatSearchAll (net : Net) (cfg : AIConfig) (conns : List (String × Store))
    (query : String) : ChatSearchResponse :=
  let allResults := searchAllStores conns query
  { success := true
  , totalStores := conns.length
  , totalProducts := allResults.length
  , products := allResults
  , aiResponse := generateAIResponse net cfg query allResults
      { totalStores := conns.length, totalProducts := allResults.length } }

/-- Optional customer fields of the create-order request body. -/
structure CustomerInfo where
  email : Option String
  firstName : Option String
  lastName : Option String
deriving DecidableEq

/-- The request body of `POST /api/orders/create` (after the `quantity = 1`
destructuring default; `parseInt` on the already-numeric quantity is the
identity). -/
structure CreateOrderBody where
  productId : String
  storeId : String
  quantity : Nat
  customerInfo : Option CustomerInfo
  productTitle : Option String
  productPrice : Option String
deriving DecidableEq

/-- A record of the in-memory `orderTracker` map. -/
structure OrderRecord where
  orderId : Nat
  orderNumber : String
  storeId : String
  storeName : String
  productTitle : Option String
  productPrice : Option String
  quantity : Nat
  customer : Customer
  total : String
  currency : String
  status : String
  createdAt : Nat
  paidAt : Option Nat
  paymentMethod : Option String
  shopifyOrder : ShopifyOrder
deriving DecidableEq

/-- The JSON payload of a successful `POST /api/orders/create`. -/
structure CreateOrderResp where
  orderId : Nat
  orderNumber : String
  trackingId : String
  total : String
  currency : String
deriving DecidableEq

/-- JS falsiness of an optional number (`undefined` or 0). -/
def jsFalsyOptNat : Option Nat → Bool
  | none => true
  | some n => n = 0

/-- Replace the value stored under `k` (JS `Map` entry update; insertion
order is preserved). -/
def assocSet (tracker : List (String × OrderRecord)) (k : String) (v : OrderRecord) :
    List (String × OrderRecord) :=
  tracker.map (fun e => if e.1 = k then (k, v) else e)

/-- Embeds `POST /api/orders/create`: resolve store, locate product in a
100-item listing, take the first variant, fill placeholder customer and
address defaults, create the upstream order, record a
`pending_payment` tracking record.  Every error leaves the tracker
untouched. -/
def createOrderHandler (conns : List (String × Store))
    (tracker : List (String × OrderRecord)) (body : CreateOrderBody)
    (newTrackingId : String) (now : Nat) :
    List (String × OrderRecord) × Except String CreateOrderResp :=
  match conns.lookup body.storeId with
  | none => (tracker, .error "Store not found")
  | some store =>
    match store.listProducts 100 with
    | .error e => (tracker, .error ("Order creation failed: " ++ e))
    | .ok products =>
      match products.find? (fun p => toString p.id == body.productId) with
      | none => (tracker, .error "Product not found")
      | some product =>
        let variantId := product.variants.head?.map RawVariant.id
        if jsFalsyOptNat variantId then (tracker, .error "No variants available")
        else
          let defaultCustomer : Customer :=
            { email := jsOrStr (body.customerInfo.bind CustomerInfo.email) "customer@example.com"
            , firstName := jsOrStr (body.customerInfo.bind CustomerInfo.firstName) "לקוח"
            , lastName := jsOrStr (body.customerInfo.bind CustomerInfo.lastName) "חדש" }
          let defaultAddress : Address :=
            { address1 := "רחוב ראשי 1", city := "תל אביב", province := "מרכז"
            , country := "IL", zip := "12345" }
          let lineItems : List LineItem :=
            [{ variantId := variantId.getD 0, quantity := body.quantity }]
          match store.createOrder lineItems defaultCustomer defaultAddress with
          | .error e => (tracker, .error ("Order creation failed: " ++ e))
          | .ok order =>
            let record : OrderRecord :=
              { orderId := order.id
              , orderNumber := jsOrStr order.order_number order.name
              , storeId := body.storeId
              , storeName := store.name
              , productTitle := body.productTitle
              , productPrice := body.productPrice
              , quantity := body.quantity
              , customer := defaultCustomer
              , total := order.total_price
              , currency := "ILS"
              , status := "pending_payment"
              , createdAt := now
              , paidAt := none
              , paymentMethod := none
              , shopifyOrder := order }
            (tracker ++ [(newTrackingId, record)]
            , .ok { orderId := order.id
                  , orderNumber := jsOrStr order.order_number order.name
                  , trackingId := newTrackingId
                  , total := order.total_price
                  , currency := "ILS" })

/-- Embeds `POST /api/orders/:trackingId/pay`: 404 on an unknown tracking id
(tracker untouched); otherwise stamp `status = paid`, `paidAt = now`
and the payment method (body default `paypal_demo`), updating the
record in place. -/
def markPaid (tracker : List (String × OrderRecord)) (trackingId : String)
    (bodyPaymentMethod : Option String) (now : Nat) :
    List (String × OrderRecord) × Except String OrderRecord :=
  let paymentMethod := bodyPaymentMethod.getD "paypal_demo"
  match tracker.lookup trackingId with
  | none => (tracker, .error "Order not found")
  | some order =>
    let updated := { order with status := "paid", paidAt := some now
                              , paymentMethod := some paymentMethod }
    (assocSet tracker trackingId updated, .ok updated)

/-- The per-store view returned by `GET /api/stores`: metadata only,
the structure has no token field. -/
structure StoreView where
  id : String
  name : String
  url : String
  owner : String
  createdAt : Nat
deriving DecidableEq

/-- Embeds `GET /api/stores`: project every registered store to its public
view. -/
def listStores (conns : List (String × Store)) : List StoreView :=
  conns.map (fun e =>
    { id := e.2.id, name := e.2.name, url := e.2.url, owner := e.2.owner
    , createdAt := e.2.createdAt })

/-- Credential masking of `GET /api/ai/config`:
`key ? '***' + key.slice(-4) : ''`. -/
def maskKey (k : String) : String :=
  if k = "" then "" else "***" ++ jsSliceNeg k 4

/-- The JSON payload of `GET /api/ai/config`. -/
structure AIConfigView where
  provider : String
  model : String
  anthropicKey : String
  openaiKey : String
  geminiFreeKey : String
  huggingfaceKey : String
  ollamaUrl : String
  deepseekKey : String
deriving DecidableEq

/-- Embeds `GET /api/ai/config`: provider, model and `ollamaUrl` verbatim, the
five API keys masked. -/
def aiConfigView (cfg : AIConfig) : AIConfigView :=
  { provider := cfg.provider
  , model := cfg.model
  , anthropicKey := maskKey cfg.anthropicKey
  , openaiKey := maskKey cfg.openaiKey
  , geminiFreeKey := maskKey cfg.geminiFreeKey
  , huggingfaceKey := maskKey cfg.huggingfaceKey
  , ollamaUrl := cfg.ollamaUrl
  , deepseekKey := maskKey cfg.deepseekKey }

/-- The request body of `POST /api/ai/config` (absent fields are
`none`). -/
structure SaveBody where
  provider : Option String
  model : Option String
  anthropicKey : Option String
  openaiKey : Option String
  geminiFreeKey : Option String
  huggingfaceKey : Option String
  ollamaUrl : Option String
  deepseekKey : Option String
deriving DecidableEq

/-- Field update guarded only by truthiness (`if (provider) ...`). -/
def updTruthy (cur : String) (v : Option String) : String :=
  match v with
  | none => cur
  | some s => if s = "" then cur else s

/-- Key update guarded by truthiness and the mask sentinel
(`if (key && !key.startsWith('***')) ...`). -/
def updKey (cur : String) (v : Option String) : String :=
  match v with
  | none => cur
  | some s => if s = "" then cur else if jsStartsWith s "***" then cur else s

/-- Embeds `POST /api/ai/config`: merge the request body into the stored
configuration, skipping falsy fields and masked key values. -/
def saveAIConfig (cfg : AIConfig) (body : SaveBody) : AIConfig :=
  { provider := updTruthy cfg.provider body.provider
  , model := updTruthy cfg.model body.model
  , anthropicKey := updKey cfg.anthropicKey body.anthropicKey
  , openaiKey := updKey cfg.openaiKey body.openaiKey
  , geminiFreeKey := updKey cfg.geminiFreeKey body.geminiFreeKey
  , huggingfaceKey := updKey cfg.huggingfaceKey body.huggingfaceKey
  , ollamaUrl := updTruthy cfg.ollamaUrl body.ollamaUrl
  , deepseekKey := updKey cfg.deepseekKey body.deepseekKey }

/-- Posting back a configuration view verbatim: every field present. -/
def bodyOfView (v : AIConfigView) : SaveBody :=
  { provider := some v.provider
  , model := some v.model
  , anthropicKey := some v.anthropicKey
  , openaiKey := some v.openaiKey
  , geminiFreeKey := some v.geminiFreeKey
  , huggingfaceKey := some v.huggingfaceKey
  , ollamaUrl := some v.ollamaUrl
  , deepseekKey := some v.deepseekKey }

/-- Ordering key exactly as claim C1 words it: the price parsed as a
number, with a missing or non-numeric price string treated as 0. -/
def claimPriceKey (p : AggregatedProduct) : ℚ :=
  match p.price with
  | none => 0
  | some s =>
    match jsParseFloat s with
    | .num q => q
    | _ => 0

/-- The rational value of a product's comparator key. -/
def qkey (p : AggregatedProduct) : ℚ := (priceKey p).val

/-- The startup AI configuration with no environment credentials
(`provider: 'none'`, empty keys, default ollama URL). -/
def cfgNone : AIConfig :=
  { provider := "none"
  , model := "claude-3-sonnet-20240229"
  , anthropicKey := ""
  , openaiKey := ""
  , geminiFreeKey := ""
  , huggingfaceKey := ""
  , ollamaUrl := "http://localhost:11434"
  , deepseekKey := "" }

/-- A network capability that fails on every call. -/
def failNet : Net := fun _ _ _ => .error "Network Error"

/-- The runtime AI configuration with `anthropic` selected and a stored
key. -/
def cfgAnthropic : AIConfig :=
  { provider := "anthropic"
  , model := "claude-3-sonnet-20240229"
  , anthropicKey := "sk-demo-key"
  , openaiKey := ""
  , geminiFreeKey := ""
  , huggingfaceKey := ""
  , ollamaUrl := "http://localhost:11434"
  , deepseekKey := "" }

/-- A concrete pending-payment tracking record. -/
def demoOrderRecord : OrderRecord :=
  { orderId := 900
  , orderNumber := "#1001"
  , storeId := "s1"
  , storeName := "Store1"
  , productTitle := some "Product One"
  , productPrice := some "50"
  , quantity := 1
  , customer := { email := "customer@example.com", firstName := "לקוח", lastName := "חדש" }
  , total := "50"
  , currency := "ILS"
  , status := "pending_payment"
  , createdAt := 0
  , paidAt := none
  , paymentMethod := none
  , shopifyOrder := { id := 900, order_number := some "#1001", name := "#1001", total_price := "50" } }

/-- A product with an empty variant list. -/
def noVariantProduct : RawProduct :=
  { id := 3
  , title := "Variantless"
  , vendor := none
  , product_type := none
  , variants := []
  , images := [] }

/-- Concrete store whose catalogue contains only the variantless
product. -/
def demoStore3 : Store :=
  { id := "s3"
  , name := "Store3"
  , url := "https://three.example.com"
  , token := "tok-three-secret"
  , owner := "owner3@example.com"
  , createdAt := 0
  , searchProducts := fun _ _ => .ok []
  , listProducts := fun _ => .ok [noVariantProduct]
  , createOrder := fun _ _ _ => .error "not supported" }

/-- A minimal create-order request body. -/
def demoBody (pid sid : String) : CreateOrderBody :=
  { productId := pid
  , storeId := sid
  , quantity := 1
  , customerInfo := none
  , productTitle := none
  , productPrice := none }

/-- The runtime AI configuration with `ollama` selected and a
non-default ollama URL. -/
def cfgOllama : AIConfig :=
  { provider := "ollama"
  , model := "llama3"
  , anthropicKey := ""
  , openaiKey := ""
  , geminiFreeKey := ""
  , huggingfaceKey := ""
  , ollamaUrl := "http://secret-internal-host:11434"
  , deepseekKey := "" }

/-! ### Generic helper lemmas -/

theorem strAppendData (s t : String) : (s ++ t).data = s.data ++ t.data := rfl

theorem append_ne_empty (s t : String) (h : s ≠ "") : s ++ t ≠ "" := by
  intro hc
  apply h
  have hd : s.data ++ t.data = [] := by
    have h2 := congrArg String.data hc
    rwa [strAppendData] at h2
  obtain ⟨d⟩ := s
  obtain rfl : d = [] := (List.append_eq_nil.mp hd).1
  rfl

theorem isPrefixOf_self_append (l₁ l₂ : List Char) : l₁.isPrefixOf (l₁ ++ l₂) = true := by
  induction l₁ with
  | nil => cases l₂ <;> rfl
  | cons a t ih => simp [List.isPrefixOf, ih]

theorem startsWith_triple_append (t : String) : jsStartsWith ("***" ++ t) "***" = true := by
  have h := isPrefixOf_self_append "***".data t.data
  rw [jsStartsWith, strAppendData]
  exact h

theorem foldl_pushIf {α β : Type} (f : α × β → Bool) :
    ∀ (l : List (α × β)) (acc : List β),
      l.foldl (fun ts kv => if f kv then ts ++ [kv.2] else ts) acc =
        acc ++ (l.filter f).map Prod.snd := by
  intro l
  induction l with
  | nil => intro acc; simp
  | cons kv t ih =>
    intro acc
    by_cases h : f kv = true
    · simp [h, ih, List.filter_cons]
    · simp [h, ih, List.filter_cons]

/-! ### C3: query expansion -/

/-- C3 (amended): the expanded term sequence is the verbatim query
followed by, for each dictionary entry whose key occurs
case-insensitively in the query and in dictionary order, that entry's
expansion string — one occurrence per matching entry (so an expansion
shared by two matching keys appears twice); non-matching entries
contribute nothing. -/
theorem translate_first_and_matches (q : String) :
    translateSearchQuery q =
      q :: ((translations.filter
        (fun kv => jsIncludes (jsToLower q) (jsToLower kv.1))).map Prod.snd) := by
  unfold translateSearchQuery
  rw [foldl_pushIf (fun kv => jsIncludes (jsToLower q) (jsToLower kv.1)) translations [q]]
  rfl

/-- C3 counterexample: the query `"מוצרי רכב"` contains both the
dictionary keys `"רכב"` and `"מוצרי רכב"`, which share the expansion
`"car automotive"`, so that expansion appears twice, not exactly once. -/
theorem translate_exactly_once_counterexample :
    translateSearchQuery "מוצרי רכב" = ["מוצרי רכב", "car automotive", "car automotive"] ∧
    jsIncludes (jsToLower "מוצרי רכב") (jsToLower "מוצרי רכב") = true ∧
    (translateSearchQuery "מוצרי רכב").count "car automotive" ≠ 1 := by
  refine ⟨by decide, by decide, by decide⟩

/-! ### C1: price sorting of the all-stores search -/

theorem jnumCmp_le_zero (qa qb : ℚ) :
    jnumCmp (.num qa) (.num qb) ≤ 0 ↔ qa ≤ qb := by
  simp only [jnumCmp]
  split_ifs with h1 h2
  · simp [h1.le]
  · simp [not_le.mpr h2]
  · simp [not_lt.mp h2]

theorem priceLe_iff_of_num {a b : AggregatedProduct}
    (ha : (priceKey a).isNum = true) (hb : (priceKey b).isNum = true) :
    priceLe a b ↔ qkey a ≤ qkey b := by
  obtain ⟨qa, hqa⟩ : ∃ q, priceKey a = .num q := by
    cases h : priceKey a <;> simp [JNum.isNum, h] at ha ⊢
  obtain ⟨qb, hqb⟩ : ∃ q, priceKey b = .num q := by
    cases h : priceKey b <;> simp [JNum.isNum, h] at hb ⊢
  unfold priceLe priceCmp qkey
  rw [hqa, hqb]
  simpa [JNum.val] using jnumCmp_le_zero qa qb

theorem pairwise_orderedInsert_num (a : AggregatedProduct) (l : List AggregatedProduct)
    (ha : (priceKey a).isNum = true) (hl : ∀ x ∈ l, (priceKey x).isNum = true)
    (h : l.Pairwise (fun x y => qkey x ≤ qkey y)) :
    (l.orderedInsert priceLe a).Pairwise (fun x y => qkey x ≤ qkey y) := by
  induction l with
  | nil => simp
  | cons b t ih =>
    rw [List.pairwise_cons] at h
    obtain ⟨hb, ht⟩ := h
    have hbnum := hl b (List.mem_cons_self b t)
    have htnum : ∀ x ∈ t, (priceKey x).isNum = true :=
      fun x hx => hl x (List.mem_cons_of_mem b hx)
    by_cases hab : priceLe a b
    · rw [List.orderedInsert, if_pos hab]
      refine List.pairwise_cons.mpr ⟨?_, List.pairwise_cons.mpr ⟨hb, ht⟩⟩
      intro x hx
      rcases List.mem_cons.mp hx with rfl | hx
      · exact (priceLe_iff_of_num ha hbnum).mp hab
      · exact le_trans ((priceLe_iff_of_num ha hbnum).mp hab) (hb x hx)
    · rw [List.orderedInsert, if_neg hab]
      refine List.pairwise_cons.mpr ⟨?_, ih htnum ht⟩
      intro x hx
      rcases (List.mem_orderedInsert priceLe).mp hx with rfl | hx
      · exact le_of_not_le (fun hc => hab ((priceLe_iff_of_num ha hbnum).mpr hc))
      · exact hb x hx

theorem pairwise_insertionSort_num (l : List AggregatedProduct)
    (hl : ∀ x ∈ l, (priceKey x).isNum = true) :
    (l.insertionSort priceLe).Pairwise (fun x y => qkey x ≤ qkey y) := by
  induction l with
  | nil => simp
  | cons a t ih =>
    simp only [List.insertionSort]
    refine pairwise_orderedInsert_num a _ (hl a (List.mem_cons_self a t)) ?_ ?_
    · intro x hx
      exact hl x (List.mem_cons_of_mem a ((List.perm_insertionSort priceLe t).mem_iff.mp hx))
    · exact ih (fun x hx => hl x (List.mem_cons_of_mem a hx))

/-- C1 (amended): the all-stores search result is sorted non-decreasingly
by parsed price — with a missing or empty price string parsed as 0 —
provided every retained product's price parses to a finite number.  (A
non-empty, non-numeric price parses to NaN, which ECMAScript
`SortCompare` treats as equal to everything, so no order is guaranteed
around such a product.) -/
theorem search_sorted_of_numeric_prices (conns : List (String × Store)) (q : String)
    (h : ∀ p ∈ searchAllStores conns q, (priceKey p).isNum = true) :
    (searchAllStores conns q).Pairwise (fun a b => qkey a ≤ qkey b) := by
  unfold searchAllStores at h ⊢
  exact pairwise_insertionSort_num _
    (fun x hx => h x ((List.perm_insertionSort priceLe _).mem_iff.mpr hx))

/-- Witness for C1's amended theorem at the concrete one-store registry
with the numeric prices "50" and "10". -/
theorem search_sorted_witness :
    (searchAllStores [("s1", demoStore1)] "x").Pairwise (fun a b => qkey a ≤ qkey b) :=
  search_sorted_of_numeric_prices [("s1", demoStore1)] "x" (by decide)

/-- C1 counterexample: with a store whose catalogue is a `"5"`-priced
product followed by an `"abc"`-priced one, the comparator sees NaN for
`"abc"` (not 0), keeps the pair in place, and the returned list has
claim-keys `[5, 0]` — not non-decreasing under the claimed
missing-or-non-numeric-as-0 ordering. -/
theorem search_sorted_counterexample :
    ((searchAllStores [("sx", demoStoreBadPrice)] "x").map claimPriceKey = [5, 0]) ∧
    ¬ ((searchAllStores [("sx", demoStoreBadPrice)] "x").map claimPriceKey).Pairwise
        (fun a b => a ≤ b) := by
  refine ⟨by decide, by decide⟩

/-! ### C4: partial-failure tolerance -/

theorem storeTermFold_dead (idB : String) (B : Store)
    (hB : ∀ t n, ∃ e, B.searchProducts t n = Except.error e) :
    ∀ (terms : List String) (start : List Nat × List AggregatedProduct),
      storeTermFold idB B terms start = start := by
  intro terms
  induction terms with
  | nil => intro start; rfl
  | cons t ts ih =>
    intro start
    obtain ⟨e, he⟩ := hB t 10
    unfold storeTermFold
    rw [List.foldl_cons]
    have hstep : termStep idB B start t = start := by
      unfold termStep
      rw [he]
    rw [hstep]
    exact ih start

/-- C4: a store whose `searchProducts` throws on every call contributes
nothing to the all-stores search, wherever it sits in the registry; the
result equals the search over the remaining stores (in particular,
exactly the healthy stores' deduplicated, sorted results, with no
exception surfacing — the operation is total). -/
theorem dead_store_contributes_nothing (pre post : List (String × Store))
    (idB : String) (B : Store) (q : String)
    (hB : ∀ t n, ∃ e, B.searchProducts t n = Except.error e) :
    searchAllStores (pre ++ (idB, B) :: post) q = searchAllStores (pre ++ post) q := by
  unfold searchAllStores searchAllStoresRaw
  congr 1
  rw [List.foldl_append, List.foldl_append, List.foldl_cons]
  congr 1
  show (storeTermFold idB B (translateSearchQuery q) ([], _)).2 = _
  rw [storeTermFold_dead idB B hB]

/-- Witness for C4 at the spec's concrete scenario: `Store1` returning
`{id:1,price:"50"}, {id:2,price:"10"}` and `Store2` throwing on every
call; the dead store is eliminated, and the result is the price-sorted
pair `[(2,"10"), (1,"50")]`. -/
theorem dead_store_witness :
    searchAllStores [("s1", demoStore1), ("s2", demoStore2)] "x" =
      searchAllStores [("s1", demoStore1)] "x" ∧
    (searchAllStores [("s1", demoStore1), ("s2", demoStore2)] "x").map
      (fun p => (p.id, p.price)) = [(2, some "10"), (1, some "50")] :=
  ⟨dead_store_contributes_nothing [("s1", demoStore1)] [] "s2" demoStore2 "x"
      (fun _ _ => ⟨"Store unavailable", rfl⟩),
   by decide⟩

/-! ### C5: per-store deduplication, no cross-store deduplication -/

theorem pushProducts_append (storeId : String) :
    ∀ (ps : List RawProduct) (seen : List Nat) (acc : List AggregatedProduct),
      pushProducts storeId ps (seen, acc) =
        ((pushProducts storeId ps (seen, [])).1,
          acc ++ (pushProducts storeId ps (seen, [])).2) := by
  intro ps
  induction ps with
  | nil => intro seen acc; simp [pushProducts]
  | cons p t ih =>
    intro seen acc
    by_cases h : seen.contains p.id = true
    · simp only [pushProducts]
      rw [if_pos h, if_pos h]
      exact ih seen acc
    · simp only [pushProducts]
      rw [if_neg h, if_neg h]
      rw [ih (seen ++ [p.id]) (acc ++ [toAggregated storeId p]),
          ih (seen ++ [p.id]) ([] ++ [toAggregated storeId p])]
      simp

theorem termStep_append (storeId : String) (store : Store) (term : String)
    (seen : List Nat) (acc : List AggregatedProduct) :
    termStep storeId store (seen, acc) term =
      ((termStep storeId store (seen, []) term).1,
        acc ++ (termStep storeId store (seen, []) term).2) := by
  unfold termStep
  cases h : store.searchProducts term 10 with
  | error e => simp
  | ok ps => exact pushProducts_append storeId ps seen acc

theorem storeTermFold_append (storeId : String) (store : Store) :
    ∀ (terms : List String) (seen : List Nat) (acc : List AggregatedProduct),
      storeTermFold storeId store terms (seen, acc) =
        ((storeTermFold storeId store terms (seen, [])).1,
          acc ++ (storeTermFold storeId store terms (seen, [])).2) := by
  intro terms
  induction terms with
  | nil => intro seen acc; simp [storeTermFold]
  | cons t ts ih =>
    intro seen acc
    unfold storeTermFold at ih ⊢
    rw [List.foldl_cons, List.foldl_cons]
    rcases hts : termStep storeId store (seen, []) t with ⟨s1, r1⟩
    rw [termStep_append storeId store t seen acc, hts]
    rw [ih s1 (acc ++ r1), ih s1 r1]
    simp

theorem searchRaw_eq_flatten_aux (q : String) :
    ∀ (conns : List (String × Store)) (R : List AggregatedProduct),
      conns.foldl
        (fun allResults e =>
          (storeTermFold e.1 e.2 (translateSearchQuery q) ([], allResults)).2) R =
        R ++ (conns.map
          (fun e => storeContribution e.1 e.2 (translateSearchQuery q))).flatten := by
  intro conns
  induction conns with
  | nil => intro R; simp
  | cons e t ih =>
    intro R
    rw [List.foldl_cons]
    have h1 : (storeTermFold e.1 e.2 (translateSearchQuery q) ([], R)).2 =
        R ++ storeContribution e.1 e.2 (translateSearchQuery q) := by
      rw [storeTermFold_append e.1 e.2 (translateSearchQuery q) [] R]
      rfl
    rw [h1, ih]
    simp

theorem searchAllStoresRaw_eq_flatten (conns : List (String × Store)) (q : String) :
    searchAllStoresRaw conns q =
      (conns.map (fun e => storeContribution e.1 e.2 (translateSearchQuery q))).flatten := by
  have h := searchRaw_eq_flatten_aux q conns []
  rw [List.nil_append] at h
  exact h

theorem pushProducts_inv (storeId : String) :
    ∀ (ps : List RawProduct) (seen : List Nat) (res : List AggregatedProduct),
      res.map AggregatedProduct.id = seen → seen.Nodup →
      ((pushProducts storeId ps (seen, res)).2.map AggregatedProduct.id =
          (pushProducts storeId ps (seen, res)).1 ∧
        (pushProducts storeId ps (seen, res)).1.Nodup) := by
  intro ps
  induction ps with
  | nil => intro seen res h hn; exact ⟨h, hn⟩
  | cons p t ih =>
    intro seen res h hn
    by_cases hc : seen.contains p.id = true
    · simp only [pushProducts]
      rw [if_pos hc]
      exact ih seen res h hn
    · simp only [pushProducts]
      rw [if_neg hc]
      have hmem : p.id ∉ seen := by
        intro hm
        exact hc (by simpa using hm)
      refine ih (seen ++ [p.id]) (res ++ [toAggregated storeId p]) ?_ ?_
      · simp [h, toAggregated]
      · simp [List.nodup_append, hn, hmem]

theorem termStep_inv (storeId : String) (store : Store) (term : String)
    (seen : List Nat) (res : List AggregatedProduct)
    (h : res.map AggregatedProduct.id = seen) (hn : seen.Nodup) :
    ((termStep storeId store (seen, res) term).2.map AggregatedProduct.id =
        (termStep storeId store (seen, res) term).1 ∧
      (termStep storeId store (seen, res) term).1.Nodup) := by
  unfold termStep
  cases hs : store.searchProducts term 10 with
  | error e => exact ⟨h, hn⟩
  | ok ps => exact pushProducts_inv storeId ps seen res h hn

theorem storeTermFold_inv (storeId : String) (store : Store) :
    ∀ (terms : List String) (seen : List Nat) (res : List AggregatedProduct),
      res.map AggregatedProduct.id = seen → seen.Nodup →
      ((storeTermFold storeId store terms (seen, res)).2.map AggregatedProduct.id =
          (storeTermFold storeId store terms (seen, res)).1 ∧
        (storeTermFold storeId store terms (seen, res)).1.Nodup) := by
  intro terms
  induction terms with
  | nil => intro seen res h hn; exact ⟨h, hn⟩
  | cons t ts ih =>
    intro seen res h hn
    unfold storeTermFold at ih ⊢
    rw [List.foldl_cons]
    rcases hts : termStep storeId store (seen, res) t with ⟨s1, r1⟩
    have hinv := termStep_inv storeId store t seen res h hn
    rw [hts] at hinv
    exact ih s1 r1 hinv.1 hinv.2

/-- The retained product ids of one store's contribution are pairwise
distinct. -/
theorem storeContribution_nodup (storeId : String) (store : Store) (terms : List String) :
    ((storeContribution storeId store terms).map AggregatedProduct.id).Nodup := by
  have h := storeTermFold_inv storeId store terms [] [] rfl List.nodup_nil
  unfold storeContribution
  rw [h.1]
  exact h.2

/-- C5: within one store's contribution each product id appears at most
once (per-store seen-id deduplication), while the final result keeps
one occurrence per store of an id returned by several stores: the count
of any id in the sorted output is exactly the sum of its counts over
the individual store contributions (no cross-store deduplication). -/
theorem per_store_dedup_no_cross_dedup (conns : List (String × Store)) (q : String) :
    (∀ e ∈ conns,
      ((storeContribution e.1 e.2 (translateSearchQuery q)).map AggregatedProduct.id).Nodup) ∧
    (∀ n : Nat,
      (searchAllStores conns q).countP (fun p => p.id == n) =
        ((conns.map (fun e =>
          (storeContribution e.1 e.2 (translateSearchQuery q)).countP
            (fun p => p.id == n))).sum)) := by
  constructor
  · intro e _
    exact storeContribution_nodup e.1 e.2 _
  · intro n
    have hperm : List.Perm (searchAllStores conns q) (searchAllStoresRaw conns q) :=
      List.perm_insertionSort _ _
    rw [hperm.countP_eq, searchAllStoresRaw_eq_flatten, List.countP_flatten, List.map_map]
    rfl

/-- Witness for C5: one store's contribution has distinct ids, and
registering the same catalogue under two store ids yields product id 2
twice in the final result (once per store). -/
theorem per_store_dedup_witness :
    ((storeContribution "s1" demoStore1 (translateSearchQuery "x")).map
      AggregatedProduct.id).Nodup ∧
    (searchAllStores [("s1", demoStore1), ("s1b", demoStore1)] "x").countP
      (fun p => p.id == 2) = 2 :=
  ⟨(per_store_dedup_no_cross_dedup [("s1", demoStore1)] "x").1 ("s1", demoStore1)
      (List.mem_singleton.mpr rfl),
   ((per_store_dedup_no_cross_dedup [("s1", demoStore1), ("s1b", demoStore1)] "x").2 2).trans
      (by decide)⟩

/-! ### C6: demo path makes no network call -/

/-- C6: when the provider is `none` or the selected provider's stored
credential is falsy, the AI response equals the deterministic demo
template for every network capability — so no outbound call can affect
it — and that template string is non-empty. -/
theorem demo_path_no_network (net : Net) (cfg : AIConfig) (q : String)
    (ps : List AggregatedProduct) (stats : StoreData)
    (h : cfg.provider = "none" ∨ jsFalsyOpt (selectApiKey cfg) = true) :
    generateAIResponse net cfg q ps stats =
      Json.str (generateDemoAIResponse q ps stats) ∧
    generateDemoAIResponse q ps stats ≠ "" := by
  constructor
  · unfold generateAIResponse
    rw [if_pos h.symm]
  · simp only [generateDemoAIResponse]
    split_ifs <;> (repeat apply append_ne_empty) <;> decide

/-- Witness for C6 at the unconfigured startup state and a failing
network capability. -/
theorem demo_path_witness :
    generateAIResponse failNet cfgNone "שלום" [] ⟨1, 0⟩ =
      Json.str (generateDemoAIResponse "שלום" [] ⟨1, 0⟩) ∧
    generateDemoAIResponse "שלום" [] ⟨1, 0⟩ ≠ "" :=
  demo_path_no_network failNet cfgNone "שלום" [] ⟨1, 0⟩ (Or.inl rfl)

/-! ### C2: adapter failure path -/

theorem bind_err (call : Except String Json) (f : Json → Except String Json)
    (h : ∃ e, call = Except.error e) : ∃ e, call.bind f = Except.error e := by
  obtain ⟨e, rfl⟩ := h
  exact ⟨e, rfl⟩

theorem tryBlock_fails (net : Net) (cfg : AIConfig) (k p : String)
    (hnet : ∀ u b hd, ∃ e, net u b hd = Except.error e)
    (hsome : selectApiKey cfg ≠ none) :
    ∃ e, tryBlock net cfg k p = Except.error e := by
  unfold tryBlock
  split_ifs with h1 h2 h3 h4 h5 h6
  · exact bind_err _ _ (hnet _ _ _)
  · exact bind_err _ _ (hnet _ _ _)
  · exact bind_err _ _ (hnet _ _ _)
  · exact bind_err _ _ (hnet _ _ _)
  · exact bind_err _ _ (hnet _ _ _)
  · exact bind_err _ _ (hnet _ _ _)
  · exfalso
    apply hsome
    unfold selectApiKey
    rw [if_neg h1, if_neg h2, if_neg h3, if_neg h4, if_neg h5, if_neg h6]

/-- C2 (amended): with a configured provider whose credential is
present (truthy) and an upstream that throws on every call,
`generateAIResponse` catches the failure and returns `null` — not a
demo-template string — and the chat-search response carries that `null`
as its `aiResponse`; no exception escapes (the operation is total). -/
theorem adapter_failure_yields_null (net : Net) (cfg : AIConfig)
    (hkey : jsFalsyOpt (selectApiKey cfg) = false)
    (hnet : ∀ u b hd, ∃ e, net u b hd = Except.error e) :
    (∀ q ps stats, generateAIResponse net cfg q ps stats = Json.null) ∧
    (∀ conns q, (chatSearchAll net cfg conns q).aiResponse = Json.null) := by
  have hsome : selectApiKey cfg ≠ none := by
    intro h
    rw [h] at hkey
    simp [jsFalsyOpt] at hkey
  have hmain : ∀ q ps stats, generateAIResponse net cfg q ps stats = Json.null := by
    intro q ps stats
    have hprov : ¬ cfg.provider = "none" := by
      intro hp
      apply hsome
      simp [selectApiKey, hp]
    unfold generateAIResponse
    rw [if_neg ?hc]
    case hc =>
      rintro (h | h)
      · rw [hkey] at h
        exact Bool.false_ne_true h
      · exact hprov h
    obtain ⟨e, he⟩ := tryBlock_fails net cfg ((selectApiKey cfg).getD "")
      (buildPrompt q ps stats) hnet hsome
    rw [he]
  exact ⟨hmain, fun conns q => hmain q _ _⟩

/-- Witness for C2's amended theorem: concrete anthropic configuration,
always-failing network. -/
theorem adapter_failure_witness :
    generateAIResponse failNet cfgAnthropic "מחשב" [] ⟨1, 0⟩ = Json.null ∧
    (chatSearchAll failNet cfgAnthropic [] "x").aiResponse = Json.null :=
  ⟨(adapter_failure_yields_null failNet cfgAnthropic rfl
      (fun _ _ _ => ⟨"Network Error", rfl⟩)).1 "מחשב" [] ⟨1, 0⟩,
   (adapter_failure_yields_null failNet cfgAnthropic rfl
      (fun _ _ _ => ⟨"Network Error", rfl⟩)).2 [] "x"⟩

/-- C2 counterexample: with a configured provider and a throwing
adapter, the end user receives `aiResponse: null`, not a non-empty
demo-template string — the fallback claimed by the spec does not
happen on this path. -/
theorem adapter_failure_counterexample :
    (chatSearchAll failNet cfgAnthropic [("s1", demoStore1)] "טלפון").aiResponse =
      Json.null ∧
    Json.null ≠ Json.str (generateDemoAIResponse "טלפון"
      (searchAllStores [("s1", demoStore1)] "טלפון") ⟨1, 2⟩) := by
  constructor
  · rfl
  · intro h
    exact Json.noConfusion h

/-! ### C7: payment transition -/

theorem lookup_assocSet (tracker : List (String × OrderRecord)) (tid : String)
    (r v : OrderRecord) (h : tracker.lookup tid = some r) :
    (assocSet tracker tid v).lookup tid = some v := by
  induction tracker with
  | nil => simp [List.lookup] at h
  | cons hd t ih =>
    by_cases hk : hd.1 = tid
    · have hmap : assocSet (hd :: t) tid v = (tid, v) :: assocSet t tid v := by
        unfold assocSet
        rw [List.map_cons]
        congr 1
        show (if hd.1 = tid then (tid, v) else hd) = (tid, v)
        exact if_pos hk
      rw [hmap]
      simp [List.lookup]
    · have hmap : assocSet (hd :: t) tid v = hd :: assocSet t tid v := by
        unfold assocSet
        rw [List.map_cons]
        congr 1
        show (if hd.1 = tid then (tid, v) else hd) = hd
        exact if_neg hk
      rw [hmap]
      have hk2 : (tid == hd.1) = false := by
        simp [Ne.symm hk]
      simp only [List.lookup, hk2] at h
      simp only [List.lookup, hk2]
      exact ih h

/-- C7: paying an untracked id is a not-found error that leaves the
tracker unchanged; paying a tracked record stamps `status = "paid"`,
a non-null `paidAt` and the method; paying the same id again succeeds
and produces the same record except for the re-stamped `paidAt`. -/
theorem markPaid_spec (tracker : List (String × OrderRecord)) (tid m : String)
    (t t2 : Nat) :
    (tracker.lookup tid = none →
      markPaid tracker tid (some m) t = (tracker, Except.error "Order not found")) ∧
    (∀ r, tracker.lookup tid = some r →
      markPaid tracker tid (some m) t =
        (assocSet tracker tid
            { r with status := "paid", paidAt := some t, paymentMethod := some m },
          Except.ok
            { r with status := "paid", paidAt := some t, paymentMethod := some m })) ∧
    (∀ r, tracker.lookup tid = some r →
      markPaid (markPaid tracker tid (some m) t).1 tid (some m) t2 =
        (assocSet (markPaid tracker tid (some m) t).1 tid
            { r with status := "paid", paidAt := some t2, paymentMethod := some m },
          Except.ok
            { r with status := "paid", paidAt := some t2, paymentMethod := some m })) := by
  refine ⟨?_, ?_, ?_⟩
  · intro h
    unfold markPaid
    rw [h]
  · intro r h
    unfold markPaid
    rw [h]
    rfl
  · intro r h
    have h1 : (markPaid tracker tid (some m) t).1 =
        assocSet tracker tid
          { r with status := "paid", paidAt := some t, paymentMethod := some m } := by
      unfold markPaid
      rw [h]
      rfl
    rw [h1]
    unfold markPaid
    rw [lookup_assocSet tracker tid r _ h]
    rfl

/-- Witness for C7 on a concrete one-record tracker: unknown id is a
not-found error with unchanged tracker, a first payment stamps
`paid`/`paidAt`, and a second payment re-stamps `paidAt` only. -/
theorem markPaid_witness :
    markPaid [("T1", demoOrderRecord)] "missing" (some "card") 5 =
      ([("T1", demoOrderRecord)], Except.error "Order not found") ∧
    markPaid [("T1", demoOrderRecord)] "T1" (some "card") 5 =
      (assocSet [("T1", demoOrderRecord)] "T1"
          { demoOrderRecord with status := "paid", paidAt := some 5, paymentMethod := some "card" },
        Except.ok
          { demoOrderRecord with status := "paid", paidAt := some 5, paymentMethod := some "card" }) ∧
    markPaid (markPaid [("T1", demoOrderRecord)] "T1" (some "card") 5).1 "T1" (some "card") 7 =
      (assocSet (markPaid [("T1", demoOrderRecord)] "T1" (some "card") 5).1 "T1"
          { demoOrderRecord with status := "paid", paidAt := some 7, paymentMethod := some "card" },
        Except.ok
          { demoOrderRecord with status := "paid", paidAt := some 7, paymentMethod := some "card" }) :=
  ⟨(markPaid_spec [("T1", demoOrderRecord)] "missing" "card" 5 7).1 (by decide),
   (markPaid_spec [("T1", demoOrderRecord)] "T1" "card" 5 7).2.1 demoOrderRecord (by decide),
   (markPaid_spec [("T1", demoOrderRecord)] "T1" "card" 5 7).2.2 demoOrderRecord (by decide)⟩

/-! ### C8: order-creation error paths -/

/-- C8: an unknown store id, an unlisted product id, and a product with
no variants are each rejected with the source's error message and add
no record to the order tracker. -/
theorem createOrder_error_paths (conns : List (String × Store))
    (tracker : List (String × OrderRecord)) (body : CreateOrderBody)
    (tid : String) (now : Nat) :
    (conns.lookup body.storeId = none →
      createOrderHandler conns tracker body tid now =
        (tracker, Except.error "Store not found")) ∧
    (∀ st ps, conns.lookup body.storeId = some st →
      st.listProducts 100 = Except.ok ps →
      ps.find? (fun p => toString p.id == body.productId) = none →
      createOrderHandler conns tracker body tid now =
        (tracker, Except.error "Product not found")) ∧
    (∀ st ps product, conns.lookup body.storeId = some st →
      st.listProducts 100 = Except.ok ps →
      ps.find? (fun p => toString p.id == body.productId) = some product →
      product.variants = [] →
      createOrderHandler conns tracker body tid now =
        (tracker, Except.error "No variants available")) := by
  refine ⟨?_, ?_, ?_⟩
  · intro h
    unfold createOrderHandler
    rw [h]
  · intro st ps h1 h2 h3
    unfold createOrderHandler
    rw [h1]
    simp only [h2, h3]
  · intro st ps product h1 h2 h3 h4
    unfold createOrderHandler
    rw [h1]
    simp only [h2, h3, h4]
    rfl

/-- Witness for C8 on concrete registries: missing store, missing
product, and variantless product. -/
theorem createOrder_error_witness :
    createOrderHandler [] [] (demoBody "1" "missing") "T9" 0 =
      ([], Except.error "Store not found") ∧
    createOrderHandler [("s1", demoStore1)] [] (demoBody "99" "s1") "T9" 0 =
      ([], Except.error "Product not found") ∧
    createOrderHandler [("s3", demoStore3)] [] (demoBody "3" "s3") "T9" 0 =
      ([], Except.error "No variants available") :=
  ⟨(createOrder_error_paths [] [] (demoBody "1" "missing") "T9" 0).1 rfl,
   (createOrder_error_paths [("s1", demoStore1)] [] (demoBody "99" "s1") "T9" 0).2.1
      demoStore1 _ rfl rfl (by decide),
   (createOrder_error_paths [("s3", demoStore3)] [] (demoBody "3" "s3") "T9" 0).2.2
      demoStore3 [noVariantProduct] noVariantProduct rfl rfl (by decide) rfl⟩

/-! ### C9: read endpoints and stored secrets -/

/-- C9 (amended): the store listing is independent of the stored access
tokens (its `StoreView` carries only id, name, url, owner, createdAt);
the five provider API keys are returned masked, and a masked key never
equals the stored key when the stored key does not itself start with
`***`; the ollama URL, however — the very string the provider switch
uses as ollama's credential — is returned verbatim. -/
theorem read_views_mask_secrets (conns : List (String × Store)) (cfg : AIConfig) :
    (listStores conns =
      listStores (conns.map (fun e => (e.1, { e.2 with token := "" })))) ∧
    ((aiConfigView cfg).anthropicKey = maskKey cfg.anthropicKey ∧
      (aiConfigView cfg).openaiKey = maskKey cfg.openaiKey ∧
      (aiConfigView cfg).geminiFreeKey = maskKey cfg.geminiFreeKey ∧
      (aiConfigView cfg).huggingfaceKey = maskKey cfg.huggingfaceKey ∧
      (aiConfigView cfg).deepseekKey = maskKey cfg.deepseekKey) ∧
    ((aiConfigView cfg).ollamaUrl = cfg.ollamaUrl) ∧
    (∀ k : String, k ≠ "" → jsStartsWith k "***" = false → maskKey k ≠ k) := by
  refine ⟨?_, ⟨rfl, rfl, rfl, rfl, rfl⟩, rfl, ?_⟩
  · unfold listStores
    rw [List.map_map]
    rfl
  · intro k h1 h2 hc
    unfold maskKey at hc
    rw [if_neg h1] at hc
    rw [← hc, startsWith_triple_append] at h2
    exact Bool.noConfusion h2

/-- Witness for C9's amended theorem: token independence at a concrete
registry and masking of a concrete key. -/
theorem read_views_witness :
    listStores [("s1", demoStore1)] =
      listStores [("s1", { demoStore1 with token := "" })] ∧
    maskKey "sk-demo-key" ≠ "sk-demo-key" :=
  ⟨(read_views_mask_secrets [("s1", demoStore1)] cfgNone).1,
   (read_views_mask_secrets [] cfgNone).2.2.2 "sk-demo-key" (by decide) (by decide)⟩

/-- C9 counterexample: `GET /api/ai/config` returns the stored
`ollamaUrl` in full, and that exact string is what the provider switch
selects as the ollama provider's credential — a stored per-provider
credential echoed unmasked. -/
theorem ollama_credential_echoed_counterexample :
    (aiConfigView cfgOllama).ollamaUrl = cfgOllama.ollamaUrl ∧
    selectApiKey cfgOllama = some cfgOllama.ollamaUrl ∧
    cfgOllama.ollamaUrl ≠ "" ∧
    jsStartsWith (aiConfigView cfgOllama).ollamaUrl "***" = false := by
  refine ⟨rfl, by decide, by decide, by decide⟩

/-! ### C10: configuration round-trip -/

theorem updTruthy_self (s : String) : updTruthy s (some s) = s := by
  show (if s = "" then s else s) = s
  split_ifs <;> rfl

theorem updKey_mask (k : String) : updKey k (some (maskKey k)) = k := by
  by_cases h : k = ""
  · subst h
    rfl
  · unfold maskKey
    rw [if_neg h]
    show (if ("***" ++ jsSliceNeg k 4) = "" then k
      else if jsStartsWith ("***" ++ jsSliceNeg k 4) "***" = true then k
      else "***" ++ jsSliceNeg k 4) = k
    rw [if_neg (append_ne_empty "***" _ (by decide)),
      if_pos (startsWith_triple_append (jsSliceNeg k 4))]

/-- C10: saving back exactly the masked configuration view returned by
the read endpoint is the identity on the stored configuration — the
save handler skips empty values and any credential beginning with
`***`, so provider, model, the ollama URL and all five keys are
unchanged. -/
theorem ai_config_roundtrip (cfg : AIConfig) :
    saveAIConfig cfg (bodyOfView (aiConfigView cfg)) = cfg := by
  cases cfg with
  | mk p m k1 k2 k3 k4 ou k5 =>
    unfold saveAIConfig bodyOfView aiConfigView
    simp only
    rw [updTruthy_self, updTruthy_self, updTruthy_self,
      updKey_mask, updKey_mask, updKey_mask, updKey_mask, updKey_mask]
